import Mathlib

/-!
Verification of the senars11 Tauri launcher shell
(src/exp/tauri/src-tauri/src/main.rs).

The Rust source is a minimal desktop shell: a single command
`launch_engine` spawns the external executable `../../senars-engine`
via `std::process::Command::new(..).spawn()`, mapping any io error to
its Display string; `main` registers that command as the sole invoke
handler of a `tauri::Builder` and runs the event loop, calling
`.expect("error while running tauri application")` on the result.

The embedding models the operating system as explicit state: a spawn
oracle that either accepts a spawn request (allocating a fresh pid) or
refuses it with an errno, a log of issued syscall events, a table of
created children, and the (irrelevant to the launcher) future exit
behaviour of processes.  Rust control flow that can panic is embedded
in `RustOutcome`, so that "returns normally" and "panics" are
distinguishable outcomes.
-/

/-- Standard-stream configuration of a `std::process::Command`.
`Command::new` leaves all three streams as `inherit`. -/
inductive Stdio where
  | inherit
  | piped
  | null
deriving DecidableEq, Repr

/-- Embedding of `std::process::Command` as built by the launcher:
a program path, an argument list and the three stream configurations. -/
structure Command where
  program : String
  args : List String
  stdin : Stdio
  stdout : Stdio
  stderr : Stdio
deriving DecidableEq, Repr

/-- `Command::new(program)`: empty argument list, all streams inherited. -/
def Command.new (program : String) : Command :=
  { program := program, args := [], stdin := .inherit, stdout := .inherit,
    stderr := .inherit }

/-- Path components of a POSIX-style path string, split on the slash. -/
def splitPath (s : String) : List String :=
  s.splitOn "/"

/-- One step of relative-path resolution: `..` pops a component,
`.` is a no-op, anything else descends. -/
def resolveComp (dir : List String) (c : String) : List String :=
  if c = ".." then dir.dropLast
  else if c = "." then dir
  else dir ++ [c]

/-- Resolution of a relative path against a working directory, as the
operating system performs it when servicing the spawn request. -/
def resolve (cwd : List String) (rel : String) : List String :=
  (splitPath rel).foldl resolveComp cwd

/-- A spawn request as received by the operating system: the path
resolved against the requesting process's working directory, the
argument vector, and the stream configuration. -/
structure SpawnEvent where
  path : List String
  args : List String
  stdin : Stdio
  stdout : Stdio
  stderr : Stdio
deriving DecidableEq, Repr

/-- Syscall events observable at the OS boundary: spawn requests and
waits on a child process.  The launcher never issues a wait. -/
inductive OsEvent where
  | spawn (e : SpawnEvent)
  | wait (pid : Nat)
deriving DecidableEq, Repr

/-- Handle to a created child process, as returned by a successful
spawn (`std::process::Child`).  The launcher drops it immediately. -/
structure Child where
  pid : Nat
deriving DecidableEq, Repr

/-- Explicit operating-system state threaded through the embedding:
working directory, pid allocator, table of created children, syscall
log, the oracle deciding each spawn request (`none` = accepted,
`some errno` = refused), and the future exit behaviour of processes
(which the launcher never consults). -/
structure OsState where
  cwd : List String
  nextPid : Nat
  children : List (Nat × SpawnEvent)
  log : List OsEvent
  accept : SpawnEvent → Option Nat
  exitBehavior : Nat → Option Nat

/-- The OS service of `Command::spawn`: resolve the program path
against the current working directory, record the request in the log,
and either refuse with an errno or create a fresh child. -/
def OsState.spawnSyscall (os : OsState) (c : Command) : Except Nat Child × OsState :=
  let ev : SpawnEvent :=
    { path := resolve os.cwd c.program, args := c.args, stdin := c.stdin,
      stdout := c.stdout, stderr := c.stderr }
  match os.accept ev with
  | some errno => (.error errno, { os with log := os.log ++ [.spawn ev] })
  | none =>
      (.ok { pid := os.nextPid },
       { os with
          nextPid := os.nextPid + 1,
          children := os.children ++ [(os.nextPid, ev)],
          log := os.log ++ [.spawn ev] })

/-- Decimal digit character: `decDigit d` is `'0' + d`. -/
def decDigit (d : Nat) : Char :=
  Char.ofNat (48 + d)

/-- Fuel-driven decimal rendering of a natural number (most
significant digit first); the fuel bounds the number of digits. -/
def natDecimalAux : Nat → Nat → List Char
  | 0, _ => []
  | fuel + 1, n =>
      if n < 10 then [decDigit n]
      else natDecimalAux fuel (n / 10) ++ [decDigit (n % 10)]

/-- Decimal rendering of a natural number, as Rust's `Display for u32`
produces it inside io-error messages. -/
def natDecimal (n : Nat) : String :=
  ⟨natDecimalAux (n + 1) n⟩

/-- The `strerror` text of the errnos relevant to spawning, as glibc
reports them; unknown codes render as `Unknown error N`. -/
def strerror (n : Nat) : String :=
  if n = 2 then "No such file or directory"
  else if n = 13 then "Permission denied"
  else if n = 12 then "Cannot allocate memory"
  else if n = 20 then "Not a directory"
  else if n = 11 then "Resource temporarily unavailable"
  else "Unknown error " ++ natDecimal n

/-- The `Display` formatting of a `std::io::Error` carrying an OS
errno: `strerror text (os error N)`.  It is a function of the errno
alone; the attempted path is not part of the error. -/
def ioErrorDisplay (errno : Nat) : String :=
  strerror errno ++ " (os error " ++ natDecimal errno ++ ")"

/-- Outcome of running a Rust function: a normally returned value, or
a panic with its message. -/
inductive RustOutcome (α : Type) where
  | normal (val : α)
  | panicked (msg : String)
deriving DecidableEq, Repr

/-- The fixed relative path the launcher spawns. -/
def ENGINE_PATH : String :=
  "../../senars-engine"

/-- The spawn request `launch_engine` issues, resolved against the
working directory current at invocation time: the engine path with no
arguments and all three standard streams inherited. -/
def engineEvent (cwd : List String) : SpawnEvent :=
  { path := resolve cwd ENGINE_PATH, args := [], stdin := .inherit,
    stdout := .inherit, stderr := .inherit }

/-- Embedding of the `launch_engine` command:
`Command::new("../../senars-engine").spawn().map_err(|e| e.to_string())?; Ok(())`.
The `?` propagates the error as a normal `Err` return; the child
handle of a successful spawn is dropped and `Ok(())` returned. -/
def launch_engine (os : OsState) : RustOutcome (Except String Unit) × OsState :=
  match os.spawnSyscall (Command.new ENGINE_PATH) with
  | (.error e, os') => (.normal (.error (ioErrorDisplay e)), os')
  | (.ok _child, os') => (.normal (.ok ()), os')

/-- Unfolding of `launch_engine` when the OS refuses the spawn. -/
theorem launch_engine_refused (os : OsState) (e : Nat)
    (h : os.accept (engineEvent os.cwd) = some e) :
    launch_engine os =
      (.normal (.error (ioErrorDisplay e)),
       { os with log := os.log ++ [.spawn (engineEvent os.cwd)] }) := by
  simp [launch_engine, OsState.spawnSyscall, Command.new, engineEvent] at h ⊢
  rw [h]

/-- Unfolding of `launch_engine` when the OS accepts the spawn. -/
theorem launch_engine_accepted (os : OsState)
    (h : os.accept (engineEvent os.cwd) = none) :
    launch_engine os =
      (.normal (.ok ()),
       { os with
          nextPid := os.nextPid + 1,
          children := os.children ++ [(os.nextPid, engineEvent os.cwd)],
          log := os.log ++ [.spawn (engineEvent os.cwd)] }) := by
  simp [launch_engine, OsState.spawnSyscall, Command.new, engineEvent] at h ⊢
  rw [h]

/-- An OS state whose oracle accepts every spawn request. -/
def osAccepting : OsState :=
  { cwd := ["", "home", "user", "app"], nextPid := 41, children := [],
    log := [], accept := fun _ => none, exitBehavior := fun _ => none }

/-- An OS state whose oracle refuses every spawn request with the
given errno. -/
def osRefusing (errno : Nat) : OsState :=
  { cwd := ["", "home", "user", "app"], nextPid := 41, children := [],
    log := [], accept := fun _ => some errno, exitBehavior := fun _ => none }

/-- C1: `launch_engine` takes only the ambient OS state and returns a
two-case result: it returns normally with `Ok ()` exactly when the OS
accepts the spawn request, and returns normally with an error string
derived from the OS error (its errno Display) exactly when the spawn
request is refused. -/
theorem launch_engine_result_cases (os : OsState) :
    ((launch_engine os).1 = .normal (.ok ()) ↔
      os.accept (engineEvent os.cwd) = none)
    ∧ (∀ e : Nat, os.accept (engineEvent os.cwd) = some e →
        (launch_engine os).1 = .normal (.error (ioErrorDisplay e)))
    ∧ (∀ s : String, (launch_engine os).1 = .normal (.error s) →
        ∃ e : Nat, os.accept (engineEvent os.cwd) = some e
          ∧ s = ioErrorDisplay e) := by
  cases h : os.accept (engineEvent os.cwd) with
  | none =>
      rw [launch_engine_accepted os h]
      simp [h]
  | some e =>
      rw [launch_engine_refused os e h]
      refine ⟨by simp [h], by simp [h], ?_⟩
      intro s hs
      simp only [RustOutcome.normal.injEq, Except.error.injEq] at hs
      exact ⟨e, rfl, hs.symm⟩

/-- Witness for C1 at concrete states: the accepting oracle yields
`Ok ()` and the errno-2 refusing oracle yields the errno-2 Display. -/
theorem launch_engine_result_cases_witness :
    (launch_engine osAccepting).1 = .normal (.ok ())
    ∧ (launch_engine (osRefusing 2)).1 =
        .normal (.error (ioErrorDisplay 2)) :=
  ⟨(launch_engine_result_cases osAccepting).1.mpr rfl,
   (launch_engine_result_cases (osRefusing 2)).2.1 2 rfl⟩

/-- C2: every invocation of `launch_engine` issues exactly one spawn
request, appended to the OS syscall log: its path is the fixed
relative `../../senars-engine` resolved against the working directory
current at invocation time, its argument vector is empty, and none of
the three standard streams is redirected. -/
theorem launch_engine_one_spawn (os : OsState) :
    (launch_engine os).2.log =
      os.log ++
        [OsEvent.spawn
          { path := resolve os.cwd ENGINE_PATH, args := [],
            stdin := .inherit, stdout := .inherit, stderr := .inherit }] := by
  cases h : os.accept (engineEvent os.cwd) with
  | none => rw [launch_engine_accepted os h]; rfl
  | some e => rw [launch_engine_refused os e h]; rfl

/-- C3: `launch_engine` does not wait for the spawned child: it issues
no wait syscall (every wait event in the post-state log was already in
the pre-state log), and its result is unchanged under arbitrary
changes to the future exit behaviour of processes, so a child that
later crashes or exits nonzero cannot influence the returned value. -/
theorem launch_engine_no_wait (os : OsState) :
    (∀ f : Nat → Option Nat,
      (launch_engine { os with exitBehavior := f }).1 = (launch_engine os).1)
    ∧ (∀ pid : Nat,
        OsEvent.wait pid ∈ (launch_engine os).2.log →
          OsEvent.wait pid ∈ os.log) := by
  constructor
  · intro f
    cases h : os.accept (engineEvent os.cwd) with
    | none =>
        simp only [engineEvent] at h
        simp [launch_engine, OsState.spawnSyscall, Command.new, h]
    | some e =>
        simp only [engineEvent] at h
        simp [launch_engine, OsState.spawnSyscall, Command.new, h]
  · intro pid hmem
    rw [launch_engine_one_spawn os] at hmem
    rcases List.mem_append.mp hmem with h | h
    · exact h
    · simp at h

/-- C6: `launch_engine` is stateless across invocations: it never
changes the spawn oracle or the working directory, a second invocation
returns the same result as the first, and when the oracle accepts the
request both invocations succeed and create two child processes with
distinct pids. -/
theorem launch_engine_stateless (os : OsState) :
    (launch_engine os).2.accept = os.accept
    ∧ (launch_engine os).2.cwd = os.cwd
    ∧ (launch_engine (launch_engine os).2).1 = (launch_engine os).1
    ∧ (os.accept (engineEvent os.cwd) = none →
        (launch_engine os).1 = .normal (.ok ())
        ∧ (launch_engine (launch_engine os).2).1 = .normal (.ok ())
        ∧ (launch_engine (launch_engine os).2).2.children =
            os.children ++
              [(os.nextPid, engineEvent os.cwd),
               (os.nextPid + 1, engineEvent os.cwd)]
        ∧ os.nextPid ≠ os.nextPid + 1) := by
  cases h : os.accept (engineEvent os.cwd) with
  | none =>
      simp only [engineEvent] at h
      simp [launch_engine, OsState.spawnSyscall, Command.new, engineEvent, h]
  | some e =>
      simp only [engineEvent] at h
      simp [launch_engine, OsState.spawnSyscall, Command.new, engineEvent, h]

/-- Witness for C6 at the accepting state: two successive invocations
both succeed and produce the two expected distinct children. -/
theorem launch_engine_stateless_witness :
    (launch_engine osAccepting).1 = .normal (.ok ())
    ∧ (launch_engine (launch_engine osAccepting).2).1 = .normal (.ok ())
    ∧ (launch_engine (launch_engine osAccepting).2).2.children =
        [(41, engineEvent osAccepting.cwd),
         (42, engineEvent osAccepting.cwd)] := by
  have h := (launch_engine_stateless osAccepting).2.2.2 rfl
  exact ⟨h.1, h.2.1, h.2.2.1⟩

/-- C8: the only effect of a successful `launch_engine` invocation is
the creation of one new detached child process (one fresh pid, one
child-table entry, one spawn log entry); the working directory, the
spawn oracle and the exit behaviour are untouched, and the returned
payload is the unit value, so no handle to the child is retained. -/
theorem launch_engine_frame (os : OsState)
    (h : os.accept (engineEvent os.cwd) = none) :
    (launch_engine os).1 = .normal (.ok ())
    ∧ (launch_engine os).2 =
        { os with
            nextPid := os.nextPid + 1,
            children := os.children ++ [(os.nextPid, engineEvent os.cwd)],
            log := os.log ++ [.spawn (engineEvent os.cwd)] }
    ∧ (launch_engine os).2.cwd = os.cwd
    ∧ (launch_engine os).2.accept = os.accept
    ∧ (launch_engine os).2.exitBehavior = os.exitBehavior := by
  rw [launch_engine_accepted os h]
  exact ⟨rfl, rfl, rfl, rfl, rfl⟩

/-- Witness for C8 at the accepting state. -/
theorem launch_engine_frame_witness :
    (launch_engine osAccepting).1 = .normal (.ok ())
    ∧ (launch_engine osAccepting).2.children =
        [(41, engineEvent osAccepting.cwd)] := by
  have h := launch_engine_frame osAccepting rfl
  exact ⟨h.1, by rw [h.2.1]; rfl⟩

/-- C9: `launch_engine` never panics: for every OS state it returns
normally (the error case is propagated as a normal `Err` return via
`?`, not unwrapped), so the `RustOutcome.panicked` case is
unreachable. -/
theorem launch_engine_no_panic (os : OsState) :
    ∃ r : Except String Unit, (launch_engine os).1 = .normal r := by
  cases h : os.accept (engineEvent os.cwd) with
  | none => exact ⟨.ok (), by rw [launch_engine_accepted os h]⟩
  | some e => exact ⟨.error (ioErrorDisplay e), by rw [launch_engine_refused os e h]⟩

/-- Every character produced by the decimal renderer is a decimal
digit character. -/
theorem natDecimalAux_digits (fuel n : Nat) :
    ∀ c ∈ natDecimalAux fuel n, ∃ d : Nat, d < 10 ∧ c = decDigit d := by
  induction fuel generalizing n with
  | zero => intro c hc; simp [natDecimalAux] at hc
  | succ fuel ih =>
      intro c hc
      unfold natDecimalAux at hc
      by_cases hn : n < 10
      · simp [hn] at hc
        exact ⟨n, hn, hc⟩
      · simp [hn] at hc
        rcases hc with hc | hc
        · exact ih (n / 10) c hc
        · exact ⟨n % 10, Nat.mod_lt _ (by omega), hc⟩

/-- Digit characters are not the slash character. -/
theorem decDigit_ne_slash : ∀ d : Nat, d < 10 → decDigit d ≠ '/' := by
  decide

/-- No character of the fixed strerror texts is a slash. -/
theorem strerrorLiterals_no_slash :
    (∀ c ∈ "No such file or directory".data, c ≠ '/')
    ∧ (∀ c ∈ "Permission denied".data, c ≠ '/')
    ∧ (∀ c ∈ "Cannot allocate memory".data, c ≠ '/')
    ∧ (∀ c ∈ "Not a directory".data, c ≠ '/')
    ∧ (∀ c ∈ "Resource temporarily unavailable".data, c ≠ '/')
    ∧ (∀ c ∈ "Unknown error ".data, c ≠ '/')
    ∧ (∀ c ∈ " (os error ".data, c ≠ '/')
    ∧ (∀ c ∈ ")".data, c ≠ '/') := by
  decide

/-- No character of `strerror` output is a slash. -/
theorem strerror_no_slash (n : Nat) :
    ∀ c ∈ (strerror n).data, c ≠ '/' := by
  intro c hc
  unfold strerror at hc
  split_ifs at hc
  · exact strerrorLiterals_no_slash.1 c hc
  · exact strerrorLiterals_no_slash.2.1 c hc
  · exact strerrorLiterals_no_slash.2.2.1 c hc
  · exact strerrorLiterals_no_slash.2.2.2.1 c hc
  · exact strerrorLiterals_no_slash.2.2.2.2.1 c hc
  · rw [String.data_append] at hc
    rcases List.mem_append.mp hc with h | h
    · exact strerrorLiterals_no_slash.2.2.2.2.2.1 c h
    · obtain ⟨d, hd, rfl⟩ := natDecimalAux_digits (n + 1) n c h
      exact decDigit_ne_slash d hd

/-- No character of the io-error Display string is a slash; in
particular no path component can occur in it. -/
theorem ioErrorDisplay_no_slash (n : Nat) :
    ∀ c ∈ (ioErrorDisplay n).data, c ≠ '/' := by
  intro c hc
  unfold ioErrorDisplay at hc
  rw [String.data_append, String.data_append, String.data_append] at hc
  rcases List.mem_append.mp hc with h | h
  · rcases List.mem_append.mp h with h' | h'
    · rcases List.mem_append.mp h' with h'' | h''
      · exact strerror_no_slash n c h''
      · exact strerrorLiterals_no_slash.2.2.2.2.2.2.1 c h''
    · obtain ⟨d, hd, rfl⟩ := natDecimalAux_digits (n + 1) n c h'
      exact decDigit_ne_slash d hd
  · exact strerrorLiterals_no_slash.2.2.2.2.2.2.2 c h

/-- The string `s` mentions the engine path: the character sequence of
`ENGINE_PATH` occurs contiguously inside `s`. -/
def mentionsPath (s : String) : Prop :=
  ∃ pre post : List Char, s.data = pre ++ ENGINE_PATH.data ++ post

/-- The io-error Display string never mentions the engine path, since
the path contains a slash and the Display string contains none. -/
theorem ioErrorDisplay_not_mentionsPath (n : Nat) :
    ¬ mentionsPath (ioErrorDisplay n) := by
  rintro ⟨pre, post, hdata⟩
  have hslash : '/' ∈ ENGINE_PATH.data := by decide
  have : '/' ∈ (ioErrorDisplay n).data := by
    rw [hdata]
    exact List.mem_append.mpr (.inl (List.mem_append.mpr (.inr hslash)))
  exact ioErrorDisplay_no_slash n '/' this rfl

/-- The io-error Display string is never empty: it always ends in the
parenthesised errno. -/
theorem ioErrorDisplay_ne_empty (n : Nat) : ioErrorDisplay n ≠ "" := by
  intro h
  have := congrArg String.data h
  rw [ioErrorDisplay, String.data_append, String.data_append,
    String.data_append] at this
  simp at this

/-- C7: for every OS spawn refusal (any errno, in particular 2 for a
missing executable and 13 for a permission denial), `launch_engine`
returns an error string that is exactly the Display of the OS error
and is non-empty. -/
theorem launch_engine_error_nonempty (os : OsState) (e : Nat)
    (h : os.accept (engineEvent os.cwd) = some e) :
    (launch_engine os).1 = .normal (.error (ioErrorDisplay e))
    ∧ ioErrorDisplay e ≠ "" := by
  rw [launch_engine_refused os e h]
  exact ⟨rfl, ioErrorDisplay_ne_empty e⟩

/-- Witness for C7 at errno 2 (executable not found) and errno 13
(permission denied). -/
theorem launch_engine_error_nonempty_witness :
    ((launch_engine (osRefusing 2)).1 =
        .normal (.error (ioErrorDisplay 2)) ∧ ioErrorDisplay 2 ≠ "")
    ∧ ((launch_engine (osRefusing 13)).1 =
        .normal (.error (ioErrorDisplay 13)) ∧ ioErrorDisplay 13 ≠ "") :=
  ⟨launch_engine_error_nonempty (osRefusing 2) 2 rfl,
   launch_engine_error_nonempty (osRefusing 13) 13 rfl⟩

/-- C10: on spawn failure the returned string is exactly the Display
formatting of the OS io error — a function of the errno alone — and it
never mentions the attempted executable path `../../senars-engine`, so
the failing path cannot be recovered from the message. -/
theorem launch_engine_error_no_path (os : OsState) (e : Nat)
    (h : os.accept (engineEvent os.cwd) = some e) :
    (launch_engine os).1 = .normal (.error (ioErrorDisplay e))
    ∧ ¬ mentionsPath (ioErrorDisplay e) := by
  rw [launch_engine_refused os e h]
  exact ⟨rfl, ioErrorDisplay_not_mentionsPath e⟩

/-- Witness for C10 at errno 2: the message is the errno-2 Display and
does not mention the engine path. -/
theorem launch_engine_error_no_path_witness :
    (launch_engine (osRefusing 2)).1 =
      .normal (.error (ioErrorDisplay 2))
    ∧ ¬ mentionsPath (ioErrorDisplay 2) :=
  launch_engine_error_no_path (osRefusing 2) 2 rfl

/-- Type of registered command handlers: each runs against the
ambient OS state. -/
def Handler : Type :=
  OsState → RustOutcome (Except String Unit) × OsState

/-- Embedding of `tauri::Builder`: the table of registered invokable
commands, keyed by command name. -/
structure Builder where
  handlers : List (String × Handler)

/-- `tauri::Builder::default()`: no commands registered. -/
def Builder.default : Builder :=
  { handlers := [] }

/-- `Builder::invoke_handler`: installs the generated handler table as
the builder's command-dispatch table. -/
def Builder.invoke_handler (b : Builder) (hs : List (String × Handler)) : Builder :=
  { b with handlers := hs }

/-- The handler table produced by `tauri::generate_handler![launch_engine]`:
the single command named `launch_engine`, bound to the launcher. -/
def generated_handlers : List (String × Handler) :=
  [("launch_engine", launch_engine)]

/-- Front-end command dispatch: look up a command by name in the
builder's table. -/
def Builder.dispatch (b : Builder) (name : String) : Option Handler :=
  (b.handlers.find? (fun p => p.1 == name)).map Prod.snd

/-- The builder the application bootstrap constructs:
`tauri::Builder::default().invoke_handler(tauri::generate_handler![launch_engine])`. -/
def appBuilder : Builder :=
  Builder.default.invoke_handler generated_handlers

/-- The host GUI runtime, external to the program: `initResult k` is
the outcome of the k-th attempt to initialize and run the event loop,
`attempts` counts the run attempts made so far, and `ranWith` records
the builders the runtime was asked to run. -/
structure GuiRuntime where
  initResult : Nat → Except String Unit
  attempts : Nat
  ranWith : List Builder

/-- `Builder::run(context)`: hand the builder to the GUI runtime,
which either blocks until normal application exit (`Ok`) or fails to
initialize (`Err`); one run attempt is consumed either way. -/
def GuiRuntime.runEventLoop (g : GuiRuntime) (b : Builder) :
    Except String Unit × GuiRuntime :=
  (g.initResult g.attempts,
   { g with attempts := g.attempts + 1, ranWith := g.ranWith ++ [b] })

/-- The message `main` passes to `.expect`. -/
def EXPECT_MSG : String :=
  "error while running tauri application"

/-- Embedding of `main`: build the default builder, install the
generated handler for `launch_engine`, run the GUI event loop, and
`.expect(..)` the result — returning normally on `Ok` and panicking
with the diagnostic message on `Err`.  No second run is attempted. -/
def rustMain (g : GuiRuntime) : RustOutcome Unit × GuiRuntime :=
  match g.runEventLoop (Builder.default.invoke_handler generated_handlers) with
  | (.ok (), g') => (.normal (), g')
  | (.error e, g') => (.panicked (EXPECT_MSG ++ ": " ++ e), g')

/-- C4: the application bootstrap hands the GUI runtime exactly the
builder whose dispatch table holds `launch_engine` and nothing else: a
command name is dispatchable if and only if it is `launch_engine`, and
that name dispatches to the launcher itself. -/
theorem main_registers_only_launch_engine :
    (∀ g : GuiRuntime, (rustMain g).2.ranWith = g.ranWith ++ [appBuilder])
    ∧ (∀ name : String,
        (appBuilder.dispatch name).isSome ↔ name = "launch_engine")
    ∧ appBuilder.dispatch "launch_engine" = some launch_engine := by
  refine ⟨?_, ?_, rfl⟩
  · intro g
    cases h : g.initResult g.attempts with
    | ok u => cases u; simp [rustMain, GuiRuntime.runEventLoop, h, appBuilder]
    | error e => simp [rustMain, GuiRuntime.runEventLoop, h, appBuilder]
  · intro name
    by_cases hname : name = "launch_engine"
    · subst hname
      simp [appBuilder, Builder.dispatch, Builder.invoke_handler,
        Builder.default, generated_handlers]
    · have hb : ("launch_engine" == name) = false :=
        beq_eq_false_iff_ne.mpr (Ne.symm hname)
      simp [appBuilder, Builder.dispatch, Builder.invoke_handler,
        Builder.default, generated_handlers, List.find?, hb, hname]

/-- C5: if the GUI runtime fails to initialize, `main` panics with the
diagnostic expect-message prefixed to the runtime error, and exactly
one run attempt was consumed — no retry is made. -/
theorem main_fatal_on_init_failure (g : GuiRuntime) (e : String)
    (h : g.initResult g.attempts = .error e) :
    (rustMain g).1 = .panicked ("error while running tauri application: " ++ e)
    ∧ (rustMain g).2.attempts = g.attempts + 1 := by
  simp [rustMain, GuiRuntime.runEventLoop, h, EXPECT_MSG]

/-- Witness for C5: a runtime whose first initialization attempt fails
with a concrete message makes `main` panic with the diagnostic. -/
def gNoDisplay : GuiRuntime :=
  { initResult := fun _ => .error "no display", attempts := 0, ranWith := [] }

theorem main_fatal_on_init_failure_witness :
    (rustMain gNoDisplay).1 =
      .panicked ("error while running tauri application: " ++ "no display")
    ∧ (rustMain gNoDisplay).2.attempts = 0 + 1 :=
  main_fatal_on_init_failure gNoDisplay "no display" rfl

/-- An OS state that already has one wait event in its log and whose
oracle accepts every spawn request. -/
def osWaiting : OsState :=
  { cwd := ["", "home", "user", "app"], nextPid := 7, children := [],
    log := [OsEvent.wait 7], accept := fun _ => none,
    exitBehavior := fun _ => none }

/-- Witness for C3: at a concrete state, changing the future exit
behaviour leaves the result unchanged, and the only wait event in the
post-state log was already present before the call. -/
theorem launch_engine_no_wait_witness :
    (launch_engine { osWaiting with exitBehavior := fun _ => some 1 }).1 =
      (launch_engine osWaiting).1
    ∧ OsEvent.wait 7 ∈ osWaiting.log :=
  ⟨(launch_engine_no_wait osWaiting).1 (fun _ => some 1),
   (launch_engine_no_wait osWaiting).2 7 (by decide)⟩
